import Mathlib

/- Shallow embedding of the AppMesh gateway-route specification compiler
   (src/unnamed/part_000: gateway-route-spec) and of the TLS validation
   trusts (src/packages/@aws-cdk/aws-appmesh/lib/tls-validation.ts).

   Conventions:
   * Every `bind(scope)` method of the source either ignores its scope or
     passes it through unread, so binds are modelled as pure functions.
   * TypeScript optional fields become `Option`; a `throw` becomes
     `Except.error`.
   * The TypeScript field and method name `prefix` is a reserved Lean token
     and is rendered `pfx`; the field name `match` is a Lean keyword and is
     rendered `routeMatch` (on config records: `requestMatch` keeps its
     source name).
   * JavaScript truthiness on optional strings (`undefined` and `""` are
     falsy, every other string truthy) is `jsTruthy`; an optional object is
     truthy exactly when present (`Option.isSome`). -/

namespace AppMesh

/-- JavaScript truthiness of an optional string: `undefined` and `""` are
falsy, all other strings truthy. -/
def jsTruthy : Option String → Bool
  | none => false
  | some s => s != ""

/-- The source test `prefixPath && prefixPath[0] != '/'` (line 1383): true
exactly when the optional string is present, non-empty and its first
character is not a slash (`s.data.head?` is `s[0]`). -/
def invalidPrefixTest : Option String → Bool
  | none => false
  | some s => s != "" && s.data.head? != some '/'

/-- Enum `Default` of the source: rewrite default target toggle. -/
inductive Default where
  | ENABLED
  | DISABLED
deriving DecidableEq, Repr

/-- The string value of the `Default` enum member (TS string enum). -/
def Default.value : Default → String
  | .ENABLED => "enabled"
  | .DISABLED => "disabled"

/-- Enum `Method` of the source. -/
inductive Method where
  | GET
  | PUT
  | POST
  | DELETE
deriving DecidableEq, Repr

/-- Enum `Protocol` from shared-interfaces. -/
inductive Protocol where
  | HTTP
  | TCP
  | HTTP2
  | GRPC
deriving DecidableEq, Repr

/-- `CfnGatewayRoute.GatewayRouteHostnameMatchProperty`. -/
structure GatewayRouteHostnameMatchProperty where
  exact : Option String := none
  suffix : Option String := none
deriving DecidableEq, Repr

/-- The numeric range payload of a metadata matcher (start inclusive,
`end` exclusive; `end` is a Lean keyword, rendered `stop`). -/
structure GatewayRouteRangeMatchProperty where
  start : Int
  stop : Int
deriving DecidableEq, Repr

/-- `CfnGatewayRoute.GatewayRouteMetadataMatchProperty`: at most one of the
five matcher variants is set by the builders. -/
structure GatewayRouteMetadataMatchProperty where
  exact : Option String := none
  pfx : Option String := none
  suffix : Option String := none
  regex : Option String := none
  range : Option GatewayRouteRangeMatchProperty := none
deriving DecidableEq, Repr

/-- `CfnGatewayRoute.GrpcGatewayRouteMetadataProperty`. -/
structure GrpcGatewayRouteMetadataProperty where
  name : String
  invert : Bool
  matchProp : GatewayRouteMetadataMatchProperty
deriving DecidableEq, Repr

/-- `CfnGatewayRoute.HttpPathMatchProperty`. -/
structure HttpPathMatchProperty where
  exact : Option String := none
  regex : Option String := none
deriving DecidableEq, Repr

/-- `CfnGatewayRoute.HttpQueryParameterMatchProperty`. -/
structure HttpQueryParameterMatchProperty where
  exact : Option String := none
deriving DecidableEq, Repr

/-- `CfnGatewayRoute.QueryParameterProperty`. -/
structure QueryParameterProperty where
  name : String
  matchProp : HttpQueryParameterMatchProperty
deriving DecidableEq, Repr

/-- `CfnGatewayRoute.HttpGatewayRouteHeaderProperty`, opaque here: the
`HttpHeaderMatch` builder lives in route-spec, outside the staged sources,
and the gateway-route code only passes its bound value through. -/
structure HttpGatewayRouteHeaderProperty where
  token : String
deriving DecidableEq, Repr

/-- `HttpHeaderMatch` (from route-spec, outside the staged sources): the
compiler only calls `bind` and forwards `httpRouteHeader`, so it is an
opaque holder of its bound header property. -/
structure HttpHeaderMatch where
  httpRouteHeader : HttpGatewayRouteHeaderProperty
deriving DecidableEq, Repr

/-- `HttpHeaderMatch.bind(scope).httpRouteHeader` as a pure pass-through. -/
def HttpHeaderMatch.bind (m : HttpHeaderMatch) : HttpGatewayRouteHeaderProperty :=
  m.httpRouteHeader

/-- `GatewayRouteHostnameMatchConfig`. -/
structure GatewayRouteHostnameMatchConfig where
  hostnameMatch : GatewayRouteHostnameMatchProperty
deriving DecidableEq, Repr

/-- `GatewayRouteHostname` with its single implementation
`GatewayRouteHostnameImpl`, created via `matchingExactly` / `matchingSuffix`. -/
inductive GatewayRouteHostname where
  | matchingExactly (name : String)
  | matchingSuffix (suffix : String)
deriving DecidableEq, Repr

/-- `GatewayRouteHostnameImpl.bind`. -/
def GatewayRouteHostname.bind : GatewayRouteHostname → GatewayRouteHostnameMatchConfig
  | .matchingExactly name => { hostnameMatch := { exact := some name } }
  | .matchingSuffix suffix => { hostnameMatch := { suffix := some suffix } }

/-- `GrpcGatewayRouteMetadataMatchConfig`. -/
structure GrpcGatewayRouteMetadataMatchConfig where
  metadataMatch : GrpcGatewayRouteMetadataProperty
deriving DecidableEq, Repr

/-- `GrpcMetadataMatch` with its single implementation `MetadataMatchImpl`:
a name, an invert flag and one matcher property. The ten static
constructors (`valueIs`, `valueIsNot`, ...) each fix `invert` and one
matcher variant. -/
structure GrpcMetadataMatch where
  metadataName : String
  invert : Bool
  matchProperty : GatewayRouteMetadataMatchProperty
deriving DecidableEq, Repr

/-- `GrpcMetadataMatch.valueIs`. -/
def GrpcMetadataMatch.valueIs (metadataName metadataValue : String) : GrpcMetadataMatch :=
  { metadataName, invert := false, matchProperty := { exact := some metadataValue } }

/-- `GrpcMetadataMatch.valueIsNot`. -/
def GrpcMetadataMatch.valueIsNot (metadataName metadataValue : String) : GrpcMetadataMatch :=
  { metadataName, invert := true, matchProperty := { exact := some metadataValue } }

/-- `GrpcMetadataMatch.valueStartsWith`. -/
def GrpcMetadataMatch.valueStartsWith (metadataName p : String) : GrpcMetadataMatch :=
  { metadataName, invert := false, matchProperty := { pfx := some p } }

/-- `GrpcMetadataMatch.valueDoesNotStartWith`. -/
def GrpcMetadataMatch.valueDoesNotStartWith (metadataName p : String) : GrpcMetadataMatch :=
  { metadataName, invert := true, matchProperty := { pfx := some p } }

/-- `GrpcMetadataMatch.valueEndsWith`. -/
def GrpcMetadataMatch.valueEndsWith (metadataName suffix : String) : GrpcMetadataMatch :=
  { metadataName, invert := false, matchProperty := { suffix := some suffix } }

/-- `GrpcMetadataMatch.valueDoesNotEndWith`. -/
def GrpcMetadataMatch.valueDoesNotEndWith (metadataName suffix : String) : GrpcMetadataMatch :=
  { metadataName, invert := true, matchProperty := { suffix := some suffix } }

/-- `GrpcMetadataMatch.valueMatchesRegex`. -/
def GrpcMetadataMatch.valueMatchesRegex (metadataName regex : String) : GrpcMetadataMatch :=
  { metadataName, invert := false, matchProperty := { regex := some regex } }

/-- `GrpcMetadataMatch.valueDoesNotMatchRegex`. -/
def GrpcMetadataMatch.valueDoesNotMatchRegex (metadataName regex : String) : GrpcMetadataMatch :=
  { metadataName, invert := true, matchProperty := { regex := some regex } }

/-- `GrpcMetadataMatch.valuesIsInRange`. -/
def GrpcMetadataMatch.valuesIsInRange (metadataName : String) (start stop : Int) : GrpcMetadataMatch :=
  { metadataName, invert := false, matchProperty := { range := some { start, stop } } }

/-- `GrpcMetadataMatch.valuesIsNotInRange`. -/
def GrpcMetadataMatch.valuesIsNotInRange (metadataName : String) (start stop : Int) : GrpcMetadataMatch :=
  { metadataName, invert := true, matchProperty := { range := some { start, stop } } }

/-- `MetadataMatchImpl.bind`. -/
def GrpcMetadataMatch.bind (m : GrpcMetadataMatch) : GrpcGatewayRouteMetadataMatchConfig :=
  { metadataMatch := { name := m.metadataName, invert := m.invert, matchProp := m.matchProperty } }

/-- `HttpPathMatchConfig`. -/
structure HttpPathMatchConfig where
  pathMatch : HttpPathMatchProperty
deriving DecidableEq, Repr

/-- `HttpPathMatch` with its single implementation `HttpPathMatchImpl`. -/
structure HttpPathMatch where
  pathMatch : HttpPathMatchProperty
deriving DecidableEq, Repr

/-- `HttpPathMatch.matchingExactly`. -/
def HttpPathMatch.matchingExactly (path : String) : HttpPathMatch :=
  { pathMatch := { exact := some path } }

/-- `HttpPathMatch.matchingRegex`. -/
def HttpPathMatch.matchingRegex (regex : String) : HttpPathMatch :=
  { pathMatch := { regex := some regex } }

/-- `HttpPathMatchImpl.bind`. -/
def HttpPathMatch.bind (m : HttpPathMatch) : HttpPathMatchConfig :=
  { pathMatch := m.pathMatch }

/-- `QueryParameterConfig`. -/
structure QueryParameterConfig where
  queryParameter : QueryParameterProperty
deriving DecidableEq, Repr

/-- `QueryParameterMatch` with its single implementation
`QueryParameterMatchImpl`, created via `valueIs`. -/
structure QueryParameterMatch where
  queryParameterName : String
  matchProperty : HttpQueryParameterMatchProperty
deriving DecidableEq, Repr

/-- `QueryParameterMatch.valueIs`. -/
def QueryParameterMatch.valueIs (queryParameterName queryParameterValue : String) : QueryParameterMatch :=
  { queryParameterName, matchProperty := { exact := some queryParameterValue } }

/-- `QueryParameterMatchImpl.bind`. -/
def QueryParameterMatch.bind (m : QueryParameterMatch) : QueryParameterConfig :=
  { queryParameter := { matchProp := m.matchProperty, name := m.queryParameterName } }

/-- `HttpGatewayRouteMatchConfig`. -/
structure HttpGatewayRouteMatchProperty where
  pfx : Option String := none
  path : Option HttpPathMatchProperty := none
  headers : Option (List HttpGatewayRouteHeaderProperty) := none
  hostname : Option GatewayRouteHostnameMatchProperty := none
  method : Option Method := none
  queryParameters : Option (List QueryParameterProperty) := none
deriving DecidableEq, Repr

/-- `HttpGatewayRouteMatchConfig` wrapper around the CFN match property. -/
structure HttpGatewayRouteMatchConfig where
  requestMatch : HttpGatewayRouteMatchProperty
deriving DecidableEq, Repr

/-- `HttpGatewayRoutePathOrPrefixMatch` with its two implementations
`HttpGatewayRoutePrefixMatchImpl` (static `prefix`, rendered `pfxOf`) and
`HttpGatewayRoutePathMatchImpl` (static `path`). -/
inductive HttpGatewayRoutePathOrPrefixMatch where
  | prefixImpl (pfx : String)
  | pathImpl (pathMatch : HttpPathMatch)
deriving DecidableEq, Repr

/-- Static `HttpGatewayRoutePathOrPrefixMatch.prefix` (renamed: `prefix` is
a reserved Lean token). -/
def HttpGatewayRoutePathOrPrefixMatch.pfxOf (path : String) : HttpGatewayRoutePathOrPrefixMatch :=
  .prefixImpl path

/-- Static `HttpGatewayRoutePathOrPrefixMatch.path`. -/
def HttpGatewayRoutePathOrPrefixMatch.path (pathMatch : HttpPathMatch) : HttpGatewayRoutePathOrPrefixMatch :=
  .pathImpl pathMatch

/-- `HttpGatewayRoutePrefixMatchImpl.bind` / `HttpGatewayRoutePathMatchImpl.bind`:
the former sets only `prefix`, the latter only `path`. -/
def HttpGatewayRoutePathOrPrefixMatch.bind : HttpGatewayRoutePathOrPrefixMatch → HttpGatewayRouteMatchConfig
  | .prefixImpl p => { requestMatch := { pfx := some p } }
  | .pathImpl m => { requestMatch := { path := some m.bind.pathMatch } }

/-- `HttpGatewayRoutePrefixMatchOptions`. -/
structure HttpGatewayRoutePrefixMatchOptions where
  headers : Option (List HttpHeaderMatch) := none
  hostname : Option GatewayRouteHostname := none
  method : Option Method := none
  queryParameters : Option (List QueryParameterMatch) := none
deriving DecidableEq, Repr

/-- `HttpGatewayRouteHeaderMatchOptions`. -/
structure HttpGatewayRouteHeaderMatchOptions where
  hostname : Option GatewayRouteHostname := none
  method : Option Method := none
  queryParameters : Option (List QueryParameterMatch) := none
  prefixOrPath : Option HttpGatewayRoutePathOrPrefixMatch := none
deriving DecidableEq, Repr

/-- `HttpGatewayRouteHostnameMatchOptions`. -/
structure HttpGatewayRouteHostnameMatchOptions where
  headers : Option (List HttpHeaderMatch) := none
  method : Option Method := none
  queryParameters : Option (List QueryParameterMatch) := none
  prefixOrPath : Option HttpGatewayRoutePathOrPrefixMatch := none
deriving DecidableEq, Repr

/-- `HttpGatewayRouteMethodMatchOptions`. -/
structure HttpGatewayRouteMethodMatchOptions where
  headers : Option (List HttpHeaderMatch) := none
  hostname : Option GatewayRouteHostname := none
  queryParameters : Option (List QueryParameterMatch) := none
  prefixOrPath : Option HttpGatewayRoutePathOrPrefixMatch := none
deriving DecidableEq, Repr

/-- `HttpGatewayRoutePathMatchOptions`. -/
structure HttpGatewayRoutePathMatchOptions where
  headers : Option (List HttpHeaderMatch) := none
  method : Option Method := none
  hostname : Option GatewayRouteHostname := none
  queryParameters : Option (List QueryParameterMatch) := none
deriving DecidableEq, Repr

/-- `HttpGatewayRouteQueryParameterMatchOptions`. -/
structure HttpGatewayRouteQueryParameterMatchOptions where
  headers : Option (List HttpHeaderMatch) := none
  hostname : Option GatewayRouteHostname := none
  method : Option Method := none
  prefixOrPath : Option HttpGatewayRoutePathOrPrefixMatch := none
deriving DecidableEq, Repr

/-- `HttpGatewayRouteMatch`: one constructor per non-exported implementation
class, reachable through the six static entry points (`prefix`, `header`,
`hostname`, `method`, `path`, `queryParameters`); `prefix` and `header`
take their options bag optionally, the other four require it. -/
inductive HttpGatewayRouteMatch where
  | prefixMatch (pfx : String) (options : Option HttpGatewayRoutePrefixMatchOptions)
  | headerMatch (header : List HttpHeaderMatch) (options : Option HttpGatewayRouteHeaderMatchOptions)
  | hostnameMatch (hostname : GatewayRouteHostname) (options : HttpGatewayRouteHostnameMatchOptions)
  | methodMatch (method : Method) (options : HttpGatewayRouteMethodMatchOptions)
  | pathMatch (pathMatch : HttpPathMatch) (options : HttpGatewayRoutePathMatchOptions)
  | queryParametersMatch (queryParameter : List QueryParameterMatch) (options : HttpGatewayRouteQueryParameterMatchOptions)
deriving DecidableEq, Repr

/-- `HttpGatewayRouteMatch.bind`, dispatching to the six implementation
classes; each line mirrors the corresponding object literal field. -/
def HttpGatewayRouteMatch.bind : HttpGatewayRouteMatch → HttpGatewayRouteMatchConfig
  | .prefixMatch p options =>
    { requestMatch := {
        pfx := some p,
        headers := options.bind fun o => o.headers.map (List.map HttpHeaderMatch.bind),
        hostname := options.bind fun o => o.hostname.map fun h => h.bind.hostnameMatch,
        method := options.bind fun o => o.method,
        queryParameters := options.bind fun o =>
          o.queryParameters.map (List.map fun q => q.bind.queryParameter) } }
  | .headerMatch header options =>
    { requestMatch := {
        headers := some (header.map HttpHeaderMatch.bind),
        hostname := options.bind fun o => o.hostname.map fun h => h.bind.hostnameMatch,
        method := options.bind fun o => o.method,
        queryParameters := options.bind fun o =>
          o.queryParameters.map (List.map fun q => q.bind.queryParameter),
        path := options.bind fun o => o.prefixOrPath.bind fun pp => pp.bind.requestMatch.path,
        pfx := options.bind fun o => o.prefixOrPath.bind fun pp => pp.bind.requestMatch.pfx } }
  | .hostnameMatch hostname options =>
    { requestMatch := {
        hostname := some hostname.bind.hostnameMatch,
        headers := options.headers.map (List.map HttpHeaderMatch.bind),
        method := options.method,
        queryParameters := options.queryParameters.map (List.map fun q => q.bind.queryParameter),
        path := options.prefixOrPath.bind fun pp => pp.bind.requestMatch.path,
        pfx := options.prefixOrPath.bind fun pp => pp.bind.requestMatch.pfx } }
  | .methodMatch method options =>
    { requestMatch := {
        method := some method,
        hostname := options.hostname.map fun h => h.bind.hostnameMatch,
        headers := options.headers.map (List.map HttpHeaderMatch.bind),
        queryParameters := options.queryParameters.map (List.map fun q => q.bind.queryParameter),
        path := options.prefixOrPath.bind fun pp => pp.bind.requestMatch.path,
        pfx := options.prefixOrPath.bind fun pp => pp.bind.requestMatch.pfx } }
  | .pathMatch pm options =>
    { requestMatch := {
        path := some pm.bind.pathMatch,
        hostname := options.hostname.map fun h => h.bind.hostnameMatch,
        headers := options.headers.map (List.map HttpHeaderMatch.bind),
        method := options.method,
        queryParameters := options.queryParameters.map (List.map fun q => q.bind.queryParameter) } }
  | .queryParametersMatch queryParameter options =>
    { requestMatch := {
        queryParameters := some (queryParameter.map fun q => q.bind.queryParameter),
        hostname := options.hostname.map fun h => h.bind.hostnameMatch,
        headers := options.headers.map (List.map HttpHeaderMatch.bind),
        method := options.method,
        path := options.prefixOrPath.bind fun pp => pp.bind.requestMatch.path,
        pfx := options.prefixOrPath.bind fun pp => pp.bind.requestMatch.pfx } }

/-- `CfnGatewayRoute.GrpcGatewayRouteMatchProperty`. -/
structure GrpcGatewayRouteMatchProperty where
  hostname : Option GatewayRouteHostnameMatchProperty := none
  metadata : Option (List GrpcGatewayRouteMetadataProperty) := none
  serviceName : Option String := none
deriving DecidableEq, Repr

/-- `GrpcGatewayRouteMatchConfig`. -/
structure GrpcGatewayRouteMatchConfig where
  requestMatch : GrpcGatewayRouteMatchProperty
deriving DecidableEq, Repr

/-- `GrpcGatewayRouteHostnameMatchOptions`. -/
structure GrpcGatewayRouteHostnameMatchOptions where
  metadata : Option (List GrpcMetadataMatch) := none
  serviceName : Option String := none
deriving DecidableEq, Repr

/-- `GrpcGatewayRouteMetadataMatchOptions`. -/
structure GrpcGatewayRouteMetadataMatchOptions where
  hostname : Option GatewayRouteHostname := none
  serviceName : Option String := none
deriving DecidableEq, Repr

/-- `GrpcGatewayRouteServiceNameMatchOptions`. -/
structure GrpcGatewayRouteServiceNameMatchOptions where
  hostname : Option GatewayRouteHostname := none
  metadata : Option (List GrpcMetadataMatch) := none
deriving DecidableEq, Repr

/-- `GrpcGatewayRouteMatch`: one constructor per implementation class,
reachable through the statics `hostname`, `metadata`, `serviceName`. -/
inductive GrpcGatewayRouteMatch where
  | hostnameImpl (hostname : GatewayRouteHostname) (options : Option GrpcGatewayRouteHostnameMatchOptions)
  | metadataImpl (metadata : List GrpcMetadataMatch) (options : Option GrpcGatewayRouteMetadataMatchOptions)
  | serviceNameImpl (serviceName : String) (options : Option GrpcGatewayRouteServiceNameMatchOptions)
deriving DecidableEq, Repr

/-- Static `GrpcGatewayRouteMatch.hostname`. -/
def GrpcGatewayRouteMatch.hostname (hostname : GatewayRouteHostname)
    (options : Option GrpcGatewayRouteHostnameMatchOptions) : GrpcGatewayRouteMatch :=
  .hostnameImpl hostname options

/-- Static `GrpcGatewayRouteMatch.metadata`. -/
def GrpcGatewayRouteMatch.metadata (metadata : List GrpcMetadataMatch)
    (options : Option GrpcGatewayRouteMetadataMatchOptions) : GrpcGatewayRouteMatch :=
  .metadataImpl metadata options

/-- Static `GrpcGatewayRouteMatch.serviceName`. -/
def GrpcGatewayRouteMatch.serviceName (serviceName : String)
    (options : Option GrpcGatewayRouteServiceNameMatchOptions) : GrpcGatewayRouteMatch :=
  .serviceNameImpl serviceName options

/-- `GrpcGatewayRouteMatch.bind`, dispatching to the three implementations. -/
def GrpcGatewayRouteMatch.bind : GrpcGatewayRouteMatch → GrpcGatewayRouteMatchConfig
  | .hostnameImpl hostname options =>
    { requestMatch := {
        hostname := some hostname.bind.hostnameMatch,
        metadata := options.bind fun o => o.metadata.map (List.map fun m => m.bind.metadataMatch),
        serviceName := options.bind fun o => o.serviceName } }
  | .metadataImpl metadata options =>
    { requestMatch := {
        metadata := some (metadata.map fun m => m.bind.metadataMatch),
        hostname := options.bind fun o => o.hostname.map fun h => h.bind.hostnameMatch,
        serviceName := options.bind fun o => o.serviceName } }
  | .serviceNameImpl serviceName options =>
    { requestMatch := {
        serviceName := some serviceName,
        hostname := options.bind fun o => o.hostname.map fun h => h.bind.hostnameMatch,
        metadata := options.bind fun o => o.metadata.map (List.map fun m => m.bind.metadataMatch) } }

/-- `CfnGatewayRoute.GatewayRouteHostnameRewriteProperty`. In the source the
field is fed either a `Default` enum member (a TS string enum) or the plain
string option `defaultTargetHostname`, so it is a `String` here; enum
members pass through `Default.value`. -/
structure GatewayRouteHostnameRewriteProperty where
  defaultTargetHostname : Option String := none
deriving DecidableEq, Repr

/-- `CfnGatewayRoute.HttpGatewayRoutePathRewriteProperty`. -/
structure HttpGatewayRoutePathRewriteProperty where
  exact : String
deriving DecidableEq, Repr

/-- `CfnGatewayRoute.HttpGatewayRoutePrefixRewriteProperty`: the builders
set `defaultPrefix` or `value`, each taking a `Default` enum member. -/
structure HttpGatewayRoutePrefixRewriteProperty where
  defaultPrefix : Option Default := none
  value : Option Default := none
deriving DecidableEq, Repr

/-- `HttpGatewayRouteRewriteConfig`: the shape every HTTP rewrite builder
resolves to. -/
structure HttpGatewayRouteRewriteConfig where
  hostname : Option GatewayRouteHostnameRewriteProperty := none
  path : Option HttpGatewayRoutePathRewriteProperty := none
  pfx : Option HttpGatewayRoutePrefixRewriteProperty := none
deriving DecidableEq, Repr

/-- `HttpGatewayRoutePrefixRewriteOptions`. -/
structure HttpGatewayRoutePrefixRewriteOptions where
  defaultTargetHostname : Option String := none
deriving DecidableEq, Repr

/-- `HttpGatewayRouteHostnameOtherRewrite` with its two implementations
`HttpGatewayRoutePathRewriteImpl` (static `path`) and
`HttpGatewayRoutePrefixRewriteImpl` (statics `defaultPrefix` and
`customPrefix`). -/
inductive HttpGatewayRouteHostnameOtherRewrite where
  | pathRewriteImpl (exact : String)
  | prefixRewriteImpl (prefixRewriteProp : HttpGatewayRoutePrefixRewriteProperty)
deriving DecidableEq, Repr

/-- Static `HttpGatewayRouteHostnameOtherRewrite.path`. -/
def HttpGatewayRouteHostnameOtherRewrite.path (exact : String) : HttpGatewayRouteHostnameOtherRewrite :=
  .pathRewriteImpl exact

/-- Static `HttpGatewayRouteHostnameOtherRewrite.defaultPrefix`. -/
def HttpGatewayRouteHostnameOtherRewrite.defaultPrefixOf (isDefault : Default) : HttpGatewayRouteHostnameOtherRewrite :=
  .prefixRewriteImpl { defaultPrefix := some isDefault }

/-- Static `HttpGatewayRouteHostnameOtherRewrite.customPrefix` (the source
types its `value` parameter as `Default`). -/
def HttpGatewayRouteHostnameOtherRewrite.customPrefixOf (value : Default) : HttpGatewayRouteHostnameOtherRewrite :=
  .prefixRewriteImpl { value := some value }

/-- `HttpGatewayRoutePathRewriteImpl.bind` /
`HttpGatewayRoutePrefixRewriteImpl.bind`: the former sets only `path`, the
latter only `prefix`; neither sets `hostname`. -/
def HttpGatewayRouteHostnameOtherRewrite.bind : HttpGatewayRouteHostnameOtherRewrite → HttpGatewayRouteRewriteConfig
  | .pathRewriteImpl exact => { path := some { exact } }
  | .prefixRewriteImpl p => { pfx := some p }

/-- `HttpGatewayRouteHostnameRewriteOptions` (its `other` member). -/
structure HttpGatewayRouteHostnameRewriteOptions where
  other : Option HttpGatewayRouteHostnameOtherRewrite := none
deriving DecidableEq, Repr

/-- `HttpGatewayRouteRewrite`: one constructor per implementation class,
reachable through the statics `defaultHostname` (-> `hostnameRewrite`),
`path` (-> `pathRewrite`), `defaultPrefix` and `customPrefix` (both ->
`prefixRewrite` with the corresponding one-field property). -/
inductive HttpGatewayRouteRewrite where
  | hostnameRewrite (defaultTarget : Default) (options : Option HttpGatewayRouteHostnameRewriteOptions)
  | pathRewrite (exact : String) (options : Option HttpGatewayRoutePrefixRewriteOptions)
  | prefixRewrite (prefixRewriteProp : HttpGatewayRoutePrefixRewriteProperty) (options : Option HttpGatewayRoutePrefixRewriteOptions)
deriving DecidableEq, Repr

/-- Static `HttpGatewayRouteRewrite.defaultHostname`. -/
def HttpGatewayRouteRewrite.defaultHostname (isDefault : Default)
    (options : Option HttpGatewayRouteHostnameRewriteOptions) : HttpGatewayRouteRewrite :=
  .hostnameRewrite isDefault options

/-- Static `HttpGatewayRouteRewrite.path`. -/
def HttpGatewayRouteRewrite.path (exact : String)
    (options : Option HttpGatewayRoutePrefixRewriteOptions) : HttpGatewayRouteRewrite :=
  .pathRewrite exact options

/-- Static `HttpGatewayRouteRewrite.defaultPrefix`. -/
def HttpGatewayRouteRewrite.defaultPrefixOf (isDefault : Default)
    (options : Option HttpGatewayRoutePrefixRewriteOptions) : HttpGatewayRouteRewrite :=
  .prefixRewrite { defaultPrefix := some isDefault } options

/-- Static `HttpGatewayRouteRewrite.customPrefix` (the source types its
`value` parameter as `Default`). -/
def HttpGatewayRouteRewrite.customPrefixOf (value : Default)
    (options : Option HttpGatewayRoutePrefixRewriteOptions) : HttpGatewayRouteRewrite :=
  .prefixRewrite { value := some value } options

/-- `bind` of the three `HttpGatewayRouteRewrite` implementations.
`HttpGatewayRouteHostnameRewrite.bind` reads `this.options?.other` and
forwards its bound `prefix` and `path`; the path and prefix implementations
always emit a `hostname` record holding `this.options?.defaultTargetHostname`
(present even when the option bag or the option is absent). -/
def HttpGatewayRouteRewrite.bind : HttpGatewayRouteRewrite → HttpGatewayRouteRewriteConfig
  | .hostnameRewrite defaultTarget options =>
    let other := options.bind fun o => o.other
    { hostname := some { defaultTargetHostname := some defaultTarget.value },
      pfx := other.bind fun r => r.bind.pfx,
      path := other.bind fun r => r.bind.path }
  | .pathRewrite exact options =>
    { path := some { exact },
      hostname := some { defaultTargetHostname := options.bind fun o => o.defaultTargetHostname } }
  | .prefixRewrite p options =>
    { pfx := some p,
      hostname := some { defaultTargetHostname := options.bind fun o => o.defaultTargetHostname } }

/-- `GrpcGatewayRouteRewriteConfig`. -/
structure GrpcGatewayRouteRewriteConfig where
  hostname : Option GatewayRouteHostnameRewriteProperty := none
deriving DecidableEq, Repr

/-- `GrpcGatewayRouteRewrite` with its single implementation
`GrpcGatewayRouteRewriteImpl`, created via `defaultHostname`. -/
structure GrpcGatewayRouteRewrite where
  defaultTarget : Default
deriving DecidableEq, Repr

/-- Static `GrpcGatewayRouteRewrite.defaultHostname`. -/
def GrpcGatewayRouteRewrite.defaultHostname (isDefault : Default) : GrpcGatewayRouteRewrite :=
  { defaultTarget := isDefault }

/-- `GrpcGatewayRouteRewriteImpl.bind`. -/
def GrpcGatewayRouteRewrite.bind (r : GrpcGatewayRouteRewrite) : GrpcGatewayRouteRewriteConfig :=
  { hostname := some { defaultTargetHostname := some r.defaultTarget.value } }

/-- `IVirtualService`: the compiler reads only `virtualServiceName`. -/
structure IVirtualService where
  virtualServiceName : String
deriving DecidableEq, Repr

/-- `HttpGatewayRouteSpecOptions` (`match` rendered `routeMatch`). -/
structure HttpGatewayRouteSpecOptions where
  routeMatch : Option HttpGatewayRouteMatch := none
  routeTarget : IVirtualService
  rewrite : Option HttpGatewayRouteRewrite := none
deriving DecidableEq, Repr

/-- `GrpcGatewayRouteSpecOptions` (`match` rendered `routeMatch`). -/
structure GrpcGatewayRouteSpecOptions where
  routeMatch : GrpcGatewayRouteMatch
  routeTarget : IVirtualService
  rewrite : Option GrpcGatewayRouteRewrite := none
deriving DecidableEq, Repr

/-- `CfnGatewayRoute.GatewayRouteVirtualServiceProperty`. -/
structure GatewayRouteVirtualServiceProperty where
  virtualServiceName : String
deriving DecidableEq, Repr

/-- `CfnGatewayRoute.GatewayRouteTargetProperty`. -/
structure GatewayRouteTargetProperty where
  virtualService : GatewayRouteVirtualServiceProperty
deriving DecidableEq, Repr

/-- `CfnGatewayRoute.HttpGatewayRouteRewriteProperty`: the rewrite object
assembled inline by `HttpGatewayRouteSpec.bind`. -/
structure HttpGatewayRouteRewriteProperty where
  hostname : Option GatewayRouteHostnameRewriteProperty := none
  path : Option HttpGatewayRoutePathRewriteProperty := none
  pfx : Option HttpGatewayRoutePrefixRewriteProperty := none
deriving DecidableEq, Repr

/-- `CfnGatewayRoute.HttpGatewayRouteActionProperty`. -/
structure HttpGatewayRouteActionProperty where
  target : GatewayRouteTargetProperty
  rewrite : Option HttpGatewayRouteRewriteProperty := none
deriving DecidableEq, Repr

/-- `CfnGatewayRoute.HttpGatewayRouteProperty` (`match` rendered
`routeMatch`). -/
structure HttpGatewayRouteProperty where
  routeMatch : HttpGatewayRouteMatchProperty
  action : HttpGatewayRouteActionProperty
deriving DecidableEq, Repr

/-- `CfnGatewayRoute.GrpcGatewayRouteRewriteProperty`. -/
structure GrpcGatewayRouteRewriteProperty where
  hostname : Option GatewayRouteHostnameRewriteProperty := none
deriving DecidableEq, Repr

/-- `CfnGatewayRoute.GrpcGatewayRouteActionProperty`. -/
structure GrpcGatewayRouteActionProperty where
  target : GatewayRouteTargetProperty
  rewrite : Option GrpcGatewayRouteRewriteProperty := none
deriving DecidableEq, Repr

/-- `CfnGatewayRoute.GrpcGatewayRouteProperty` (`match` rendered
`routeMatch`). -/
structure GrpcGatewayRouteProperty where
  action : GrpcGatewayRouteActionProperty
  routeMatch : GrpcGatewayRouteMatchProperty
deriving DecidableEq, Repr

/-- `GatewayRouteSpecConfig`: the three-way protocol union emitted by
`GatewayRouteSpec.bind`. -/
structure GatewayRouteSpecConfig where
  httpSpecConfig : Option HttpGatewayRouteProperty := none
  http2SpecConfig : Option HttpGatewayRouteProperty := none
  grpcSpecConfig : Option GrpcGatewayRouteProperty := none
deriving DecidableEq, Repr

/-- The validation errors `HttpGatewayRouteSpec.bind` throws, by the spec's
taxonomy names. The source messages are, in order:
`Prefix Path must start with slash, got: <prefixPath>` (interpolating the
resolved prefix), `HTTP Gateway Route Prefix Match must be set.`, and
`HTTP Gateway Route Prefix Match and Path Rewrite both cannot be set.`. -/
inductive GatewayRouteBindError where
  | invalidPrefixFormat (got : Option String)
  | prefixRewriteRequiresPrefixMatch
  | pathRewriteConflictsWithPrefixMatch
deriving DecidableEq, Repr

/-- The non-exported class `HttpGatewayRouteSpec` (its fields). -/
structure HttpGatewayRouteSpec where
  routeMatch : Option HttpGatewayRouteMatch
  routeTarget : IVirtualService
  routeType : Protocol
  rewrite : Option HttpGatewayRouteRewrite
deriving DecidableEq, Repr

/-- The `HttpGatewayRouteSpec` constructor: it copies all four option
fields; its `protocol` parameter is typed `Protocol.HTTP | Protocol.HTTP2`
in the source and is only ever supplied by the `http` and `http2` statics. -/
def HttpGatewayRouteSpec.ofOptions (options : HttpGatewayRouteSpecOptions)
    (protocol : Protocol) : HttpGatewayRouteSpec :=
  { routeTarget := options.routeTarget, routeType := protocol,
    routeMatch := options.routeMatch, rewrite := options.rewrite }

/-- Line 1381: `this.match ? this.match.bind(scope).requestMatch.prefix : '/'`. -/
def HttpGatewayRouteSpec.resolvedPrefix (s : HttpGatewayRouteSpec) : Option String :=
  match s.routeMatch with
  | some m => m.bind.requestMatch.pfx
  | none => some "/"

/-- The sub-expression `this.match?.bind(scope).requestMatch.prefix` used by
the two rewrite checks (lines 1386 and 1389): no defaulting to `'/'`. -/
def HttpGatewayRouteSpec.matchPrefix (s : HttpGatewayRouteSpec) : Option String :=
  s.routeMatch.bind fun m => m.bind.requestMatch.pfx

/-- The `httpConfig` constant of `HttpGatewayRouteSpec.bind`
(lines 1393-1416). -/
def HttpGatewayRouteSpec.httpConfig (s : HttpGatewayRouteSpec) : HttpGatewayRouteProperty :=
  { routeMatch := {
      pfx := s.resolvedPrefix,
      headers := s.routeMatch.bind fun m => m.bind.requestMatch.headers,
      hostname := s.routeMatch.bind fun m => m.bind.requestMatch.hostname,
      method := s.routeMatch.bind fun m => m.bind.requestMatch.method,
      path := s.routeMatch.bind fun m => m.bind.requestMatch.path,
      queryParameters := s.routeMatch.bind fun m => m.bind.requestMatch.queryParameters },
    action := {
      target := { virtualService := { virtualServiceName := s.routeTarget.virtualServiceName } },
      rewrite := s.rewrite.map fun r =>
        { hostname := r.bind.hostname, path := r.bind.path, pfx := r.bind.pfx } } }

/-- `HttpGatewayRouteSpec.bind` (lines 1380-1421): the format check on the
resolved prefix, the two rewrite/match pairing checks (both reading the
caller-supplied match's prefix, without the `'/'` default), then the
protocol-tagged output whose populated slot follows `routeType`. -/
def HttpGatewayRouteSpec.bind (s : HttpGatewayRouteSpec) : Except GatewayRouteBindError GatewayRouteSpecConfig :=
  if invalidPrefixTest s.resolvedPrefix then
    Except.error (GatewayRouteBindError.invalidPrefixFormat s.resolvedPrefix)
  else if (s.rewrite.bind fun r => r.bind.pfx).isSome && !jsTruthy s.matchPrefix then
    Except.error GatewayRouteBindError.prefixRewriteRequiresPrefixMatch
  else if (s.rewrite.bind fun r => r.bind.path).isSome && jsTruthy s.matchPrefix then
    Except.error GatewayRouteBindError.pathRewriteConflictsWithPrefixMatch
  else
    Except.ok {
      httpSpecConfig := if s.routeType = Protocol.HTTP then some s.httpConfig else none,
      http2SpecConfig := if s.routeType = Protocol.HTTP2 then some s.httpConfig else none }

/-- The non-exported class `GrpcGatewayRouteSpec` (its fields). -/
structure GrpcGatewayRouteSpec where
  routeMatch : GrpcGatewayRouteMatch
  routeTarget : IVirtualService
  rewrite : Option GrpcGatewayRouteRewrite
deriving DecidableEq, Repr

/-- The `GrpcGatewayRouteSpec` constructor (lines 1444-1448): it assigns
`this.match` and `this.routeTarget` but never assigns `this.rewrite`, so
`options.rewrite` is dropped and the field stays `undefined`. -/
def GrpcGatewayRouteSpec.ofOptions (options : GrpcGatewayRouteSpecOptions) : GrpcGatewayRouteSpec :=
  { routeMatch := options.routeMatch, routeTarget := options.routeTarget,
    rewrite := none }

/-- `GrpcGatewayRouteSpec.bind` (lines 1450-1468): never throws; populates
only `grpcSpecConfig`. -/
def GrpcGatewayRouteSpec.bind (s : GrpcGatewayRouteSpec) : GatewayRouteSpecConfig :=
  { grpcSpecConfig := some {
      action := {
        target := { virtualService := { virtualServiceName := s.routeTarget.virtualServiceName } },
        rewrite := s.rewrite.map fun r => { hostname := r.bind.hostname } },
      routeMatch := s.routeMatch.bind.requestMatch } }

/-- `GatewayRouteSpec`: both implementation classes are non-exported, so
the statics `http`, `http2` and `grpc` are the only creation paths; they are
the constructors here. -/
inductive GatewayRouteSpec where
  | http (options : HttpGatewayRouteSpecOptions)
  | http2 (options : HttpGatewayRouteSpecOptions)
  | grpc (options : GrpcGatewayRouteSpecOptions)
deriving DecidableEq, Repr

/-- The protocol a `GatewayRouteSpec` was created with. -/
def GatewayRouteSpec.protocolOf : GatewayRouteSpec → Protocol
  | .http _ => Protocol.HTTP
  | .http2 _ => Protocol.HTTP2
  | .grpc _ => Protocol.GRPC

/-- `GatewayRouteSpec.bind`: dispatch to the implementation built by each
static (the gRPC bind cannot throw and is lifted into `Except.ok`). -/
def GatewayRouteSpec.bind : GatewayRouteSpec → Except GatewayRouteBindError GatewayRouteSpecConfig
  | .http options => (HttpGatewayRouteSpec.ofOptions options Protocol.HTTP).bind
  | .http2 options => (HttpGatewayRouteSpec.ofOptions options Protocol.HTTP2).bind
  | .grpc options => Except.ok (GrpcGatewayRouteSpec.ofOptions options).bind

/-- `acmpca.ICertificateAuthority`: the trust builder reads only
`certificateAuthorityArn`. -/
structure ICertificateAuthority where
  certificateAuthorityArn : String
deriving DecidableEq, Repr

/-- `TlsValidationAcmTrustOptions`. -/
structure TlsValidationAcmTrustOptions where
  certificateAuthorities : List ICertificateAuthority
deriving DecidableEq, Repr

/-- `TlsValidationFileTrustOptions`. -/
structure TlsValidationFileTrustOptions where
  certificateChain : String
deriving DecidableEq, Repr

/-- `TlsValidationSdsTrustOptions`. -/
structure TlsValidationSdsTrustOptions where
  secretName : String
deriving DecidableEq, Repr

/-- `CfnVirtualNode.TlsValidationContextAcmTrustProperty`. -/
structure TlsValidationContextAcmTrustProperty where
  certificateAuthorityArns : List String
deriving DecidableEq, Repr

/-- `CfnVirtualNode.TlsValidationContextFileTrustProperty`. -/
structure TlsValidationContextFileTrustProperty where
  certificateChain : String
deriving DecidableEq, Repr

/-- `CfnVirtualNode.TlsValidationContextSdsTrustProperty`. -/
structure TlsValidationContextSdsTrustProperty where
  secretName : String
deriving DecidableEq, Repr

/-- `CfnVirtualNode.TlsValidationContextTrustProperty`. -/
structure TlsValidationContextTrustProperty where
  acm : Option TlsValidationContextAcmTrustProperty := none
  file : Option TlsValidationContextFileTrustProperty := none
  sds : Option TlsValidationContextSdsTrustProperty := none
deriving DecidableEq, Repr

/-- `TlsValidationTrustConfig`. -/
structure TlsValidationTrustConfig where
  tlsValidationTrust : TlsValidationContextTrustProperty
deriving DecidableEq, Repr

/-- `TlsValidationTrust`: one constructor per non-exported implementation
class (`TlsValidationAcmTrust`, `TlsValidationFileTrust`,
`TlsValidationSdsTrust`), reachable through the statics `acm`, `file`,
`sds`. -/
inductive TlsValidationTrust where
  | acmTrust (certificateAuthorities : List ICertificateAuthority)
  | fileTrust (certificateChain : String)
  | sdsTrust (secretName : String)
deriving DecidableEq, Repr

/-- Static `TlsValidationTrust.acm`. -/
def TlsValidationTrust.acm (props : TlsValidationAcmTrustOptions) : TlsValidationTrust :=
  .acmTrust props.certificateAuthorities

/-- Static `TlsValidationTrust.file`. -/
def TlsValidationTrust.file (props : TlsValidationFileTrustOptions) : TlsValidationTrust :=
  .fileTrust props.certificateChain

/-- Static `TlsValidationTrust.sds`. -/
def TlsValidationTrust.sds (props : TlsValidationSdsTrustOptions) : TlsValidationTrust :=
  .sdsTrust props.secretName

/-- `bind` of the three trust implementations. `TlsValidationAcmTrust.bind`
throws `you must provide at least one Certificate Authority when creating
an ACM Trust ClientPolicy` on an empty authority list, else maps each
authority to its ARN. -/
def TlsValidationTrust.bind : TlsValidationTrust → Except String TlsValidationTrustConfig
  | .acmTrust certificateAuthorities =>
    if certificateAuthorities.length = 0 then
      Except.error "you must provide at least one Certificate Authority when creating an ACM Trust ClientPolicy"
    else
      Except.ok { tlsValidationTrust := { acm := some {
        certificateAuthorityArns :=
          certificateAuthorities.map fun certificateArn => certificateArn.certificateAuthorityArn } } }
  | .fileTrust certificateChain =>
    Except.ok { tlsValidationTrust := { file := some { certificateChain } } }
  | .sdsTrust secretName =>
    Except.ok { tlsValidationTrust := { sds := some { secretName } } }

/- Concrete fixtures used by the witness and counterexample theorems. -/

/-- A destination virtual service. -/
def svcLocal : IVirtualService := { virtualServiceName := "svc.local" }

/-- An HTTP spec whose match carries only headers (no prefix, no path):
`GatewayRouteSpec.http({ match: HttpGatewayRouteMatch.header([h]), ... })`. -/
def headerOnlySpec : HttpGatewayRouteSpec :=
  HttpGatewayRouteSpec.ofOptions
    { routeMatch := some (HttpGatewayRouteMatch.headerMatch
        [{ httpRouteHeader := { token := "x-header" } }] none),
      routeTarget := svcLocal }
    Protocol.HTTP

/-- Options with no match and no rewrite. -/
def plainHttpOptions : HttpGatewayRouteSpecOptions := { routeTarget := svcLocal }

/-- The HTTP spec built from `plainHttpOptions` by the `http` static. -/
def plainHttpSpec : HttpGatewayRouteSpec :=
  HttpGatewayRouteSpec.ofOptions plainHttpOptions Protocol.HTTP

/-- The route property `plainHttpSpec.bind` emits: prefix defaulted to
`"/"`, no rewrite. -/
def plainHttpProperty : HttpGatewayRouteProperty :=
  { routeMatch := { pfx := some "/" },
    action := { target := { virtualService := { virtualServiceName := "svc.local" } } } }

/-- The full compiled output of `plainHttpSpec.bind`. -/
def plainHttpOkConfig : GatewayRouteSpecConfig :=
  { httpSpecConfig := some plainHttpProperty }

/-- An HTTP spec with a caller-supplied prefix `"metrics"` missing its
leading slash. -/
def badPrefixSpec : HttpGatewayRouteSpec :=
  HttpGatewayRouteSpec.ofOptions
    { routeMatch := some (HttpGatewayRouteMatch.prefixMatch "metrics" none),
      routeTarget := svcLocal }
    Protocol.HTTP

/-- Scenario D: a path-based match paired with a default-prefix rewrite. -/
def pathMatchPrefixRewriteSpec : HttpGatewayRouteSpec :=
  HttpGatewayRouteSpec.ofOptions
    { routeMatch := some (HttpGatewayRouteMatch.pathMatch
        (HttpPathMatch.matchingExactly "/health") {}),
      routeTarget := svcLocal,
      rewrite := some (HttpGatewayRouteRewrite.defaultPrefixOf Default.ENABLED none) }
    Protocol.HTTP

/-- An HTTP spec whose match has the empty-string prefix `""` together with
a path rewrite. -/
def emptyPrefixPathRewriteSpec : HttpGatewayRouteSpec :=
  HttpGatewayRouteSpec.ofOptions
    { routeMatch := some (HttpGatewayRouteMatch.prefixMatch "" none),
      routeTarget := svcLocal,
      rewrite := some (HttpGatewayRouteRewrite.path "/check" none) }
    Protocol.HTTP

/-- An HTTP spec with prefix match `"/api"` together with a path rewrite. -/
def apiPrefixPathRewriteSpec : HttpGatewayRouteSpec :=
  HttpGatewayRouteSpec.ofOptions
    { routeMatch := some (HttpGatewayRouteMatch.prefixMatch "/api" none),
      routeTarget := svcLocal,
      rewrite := some (HttpGatewayRouteRewrite.path "/check" none) }
    Protocol.HTTP

/-- An HTTP spec with no match at all and a default-prefix rewrite. -/
def noMatchPrefixRewriteSpec : HttpGatewayRouteSpec :=
  HttpGatewayRouteSpec.ofOptions
    { routeTarget := svcLocal,
      rewrite := some (HttpGatewayRouteRewrite.defaultPrefixOf Default.ENABLED none) }
    Protocol.HTTP

/-- Scenario E options: gRPC service-name match with a disabled-hostname
rewrite requested. -/
def grpcRewriteOptions : GrpcGatewayRouteSpecOptions :=
  { routeMatch := GrpcGatewayRouteMatch.serviceName "billing.v1" none,
    routeTarget := svcLocal,
    rewrite := some (GrpcGatewayRouteRewrite.defaultHostname Default.DISABLED) }

/-- Scenario A: prefix match `"/metrics"`, no rewrite. -/
def metricsPrefixSpec : HttpGatewayRouteSpec :=
  HttpGatewayRouteSpec.ofOptions
    { routeMatch := some (HttpGatewayRouteMatch.prefixMatch "/metrics" none),
      routeTarget := svcLocal }
    Protocol.HTTP

/-- The route property `metricsPrefixSpec.bind` emits. -/
def metricsPrefixProperty : HttpGatewayRouteProperty :=
  { routeMatch := { pfx := some "/metrics" },
    action := { target := { virtualService := { virtualServiceName := "svc.local" } } } }

/-- The full compiled output of `metricsPrefixSpec.bind`. -/
def metricsPrefixOkConfig : GatewayRouteSpecConfig :=
  { httpSpecConfig := some metricsPrefixProperty }

/-- Two certificate authorities for the ACM trust fixtures. -/
def twoAuthorities : List ICertificateAuthority :=
  [{ certificateAuthorityArn := "arn:aws:acm-pca:ca-1" },
   { certificateAuthorityArn := "arn:aws:acm-pca:ca-2" }]

/-- A path-based match paired with a path rewrite that also carries a
custom `defaultTargetHostname`. -/
def pathRewriteHostnameSpec : HttpGatewayRouteSpec :=
  HttpGatewayRouteSpec.ofOptions
    { routeMatch := some (HttpGatewayRouteMatch.pathMatch
        (HttpPathMatch.matchingExactly "/health") {}),
      routeTarget := svcLocal,
      rewrite := some (HttpGatewayRouteRewrite.path "/check"
        (some { defaultTargetHostname := some "override.host" })) }
    Protocol.HTTP

/-- The route property `pathRewriteHostnameSpec.bind` emits. -/
def pathRewriteHostnameProperty : HttpGatewayRouteProperty :=
  { routeMatch := { path := some { exact := some "/health" } },
    action := {
      target := { virtualService := { virtualServiceName := "svc.local" } },
      rewrite := some {
        hostname := some { defaultTargetHostname := some "override.host" },
        path := some { exact := "/check" } } } }

/-- The full compiled output of `pathRewriteHostnameSpec.bind`. -/
def pathRewriteHostnameOkConfig : GatewayRouteSpecConfig :=
  { httpSpecConfig := some pathRewriteHostnameProperty }

/- Shared helper lemmas. -/

/-- No `HttpGatewayRouteMatch.bind` result carries both a prefix and a
path. -/
theorem match_pfx_path_exclusive (m : HttpGatewayRouteMatch) :
    ¬(m.bind.requestMatch.pfx.isSome = true ∧ m.bind.requestMatch.path.isSome = true) := by
  cases m with
  | prefixMatch p o => simp [HttpGatewayRouteMatch.bind]
  | headerMatch hs o =>
    cases o with
    | none => simp [HttpGatewayRouteMatch.bind]
    | some o =>
      cases hpp : o.prefixOrPath with
      | none => simp [HttpGatewayRouteMatch.bind, hpp]
      | some pp =>
        cases pp <;>
          simp [HttpGatewayRouteMatch.bind, HttpGatewayRoutePathOrPrefixMatch.bind, hpp]
  | hostnameMatch h o =>
    cases hpp : o.prefixOrPath with
    | none => simp [HttpGatewayRouteMatch.bind, hpp]
    | some pp =>
      cases pp <;>
        simp [HttpGatewayRouteMatch.bind, HttpGatewayRoutePathOrPrefixMatch.bind, hpp]
  | methodMatch mth o =>
    cases hpp : o.prefixOrPath with
    | none => simp [HttpGatewayRouteMatch.bind, hpp]
    | some pp =>
      cases pp <;>
        simp [HttpGatewayRouteMatch.bind, HttpGatewayRoutePathOrPrefixMatch.bind, hpp]
  | pathMatch pm o => simp [HttpGatewayRouteMatch.bind]
  | queryParametersMatch qs o =>
    cases hpp : o.prefixOrPath with
    | none => simp [HttpGatewayRouteMatch.bind, hpp]
    | some pp =>
      cases pp <;>
        simp [HttpGatewayRouteMatch.bind, HttpGatewayRoutePathOrPrefixMatch.bind, hpp]

/-- A rewrite whose bound config has a path rewrite has no prefix rewrite. -/
theorem rewrite_path_no_pfx (r : HttpGatewayRouteRewrite) (h : r.bind.path.isSome = true) :
    r.bind.pfx = none := by
  cases r with
  | hostnameRewrite d o =>
    cases o with
    | none => simp [HttpGatewayRouteRewrite.bind] at h
    | some o =>
      cases ho : o.other with
      | none => simp [HttpGatewayRouteRewrite.bind, ho] at h
      | some x =>
        cases x with
        | pathRewriteImpl e =>
          simp [HttpGatewayRouteRewrite.bind, HttpGatewayRouteHostnameOtherRewrite.bind, ho]
        | prefixRewriteImpl p =>
          simp [HttpGatewayRouteRewrite.bind, HttpGatewayRouteHostnameOtherRewrite.bind, ho] at h
  | pathRewrite e o => simp [HttpGatewayRouteRewrite.bind]
  | prefixRewrite p o => simp [HttpGatewayRouteRewrite.bind] at h

/-- Resolved prefix when no match object was supplied: the `'/'` default. -/
theorem resolvedPrefix_none_match (s : HttpGatewayRouteSpec) (h : s.routeMatch = none) :
    s.resolvedPrefix = some "/" := by
  unfold HttpGatewayRouteSpec.resolvedPrefix
  rw [h]

/-- Resolved prefix when a match object was supplied: its bound prefix. -/
theorem resolvedPrefix_some_match (s : HttpGatewayRouteSpec) (m : HttpGatewayRouteMatch)
    (h : s.routeMatch = some m) : s.resolvedPrefix = m.bind.requestMatch.pfx := by
  unfold HttpGatewayRouteSpec.resolvedPrefix
  rw [h]

/-- When the caller-supplied match has no prefix, the resolved prefix is
either the default `"/"` (no match) or absent, and the format check
passes. -/
theorem invalidPrefixTest_of_matchPrefix_none (s : HttpGatewayRouteSpec)
    (hm : s.matchPrefix = none) : invalidPrefixTest s.resolvedPrefix = false := by
  unfold HttpGatewayRouteSpec.matchPrefix at hm
  cases hmm : s.routeMatch with
  | none => rw [resolvedPrefix_none_match s hmm]; decide
  | some m =>
    rw [hmm] at hm
    simp only [Option.some_bind] at hm
    rw [resolvedPrefix_some_match s m hmm, hm]
    rfl

/-- A successful `HttpGatewayRouteSpec.bind` emits exactly the two
protocol-guarded copies of `httpConfig`. -/
theorem httpBind_ok_eq (s : HttpGatewayRouteSpec) (cfg : GatewayRouteSpecConfig)
    (h : s.bind = Except.ok cfg) :
    cfg = { httpSpecConfig := if s.routeType = Protocol.HTTP then some s.httpConfig else none,
            http2SpecConfig := if s.routeType = Protocol.HTTP2 then some s.httpConfig else none } := by
  unfold HttpGatewayRouteSpec.bind at h
  by_cases h1 : invalidPrefixTest s.resolvedPrefix = true
  · rw [if_pos h1] at h; simp at h
  rw [if_neg h1] at h
  by_cases h2 : ((s.rewrite.bind fun r => r.bind.pfx).isSome && !jsTruthy s.matchPrefix) = true
  · rw [if_pos h2] at h; simp at h
  rw [if_neg h2] at h
  by_cases h3 : ((s.rewrite.bind fun r => r.bind.path).isSome && jsTruthy s.matchPrefix) = true
  · rw [if_pos h3] at h; simp at h
  rw [if_neg h3] at h
  exact (Except.ok.inj h).symm

/-- Any property populating a slot of a successful bind is `httpConfig`. -/
theorem httpBind_ok_slot (s : HttpGatewayRouteSpec) (cfg : GatewayRouteSpecConfig)
    (p : HttpGatewayRouteProperty) (h : s.bind = Except.ok cfg)
    (hp : cfg.httpSpecConfig = some p ∨ cfg.http2SpecConfig = some p) :
    p = s.httpConfig := by
  have hc := httpBind_ok_eq s cfg h
  subst hc
  rcases hp with hp | hp
  · have hp2 : (if s.routeType = Protocol.HTTP then some s.httpConfig else none) = some p := hp
    split at hp2
    · exact (Option.some.inj hp2).symm
    · exact absurd hp2 (by simp)
  · have hp2 : (if s.routeType = Protocol.HTTP2 then some s.httpConfig else none) = some p := hp
    split at hp2
    · exact (Option.some.inj hp2).symm
    · exact absurd hp2 (by simp)

/- Claim theorems. -/

/-- C1 counterexample: the claim says a match carrying only headers (no
prefix, no path) compiles to a match with prefix `"/"`; on the code, the
`'/'` default applies only when no match object is supplied at all, so
`headerOnlySpec` compiles to an http slot whose match has no prefix. -/
theorem C1_counterexample :
    (headerOnlySpec.bind.toOption.bind GatewayRouteSpecConfig.httpSpecConfig).map
      (fun p => p.routeMatch.pfx) = some none := by
  rfl

/-- C1 (amended): the compiled match's prefix equals the resolved prefix
(the supplied match's bound prefix, or `"/"` exactly when no match object
was supplied); a supplied match without prefix or path yields an output
with no prefix, not `"/"`. -/
theorem C1_defaulted_prefix (s : HttpGatewayRouteSpec) (cfg : GatewayRouteSpecConfig)
    (p : HttpGatewayRouteProperty) (h : s.bind = Except.ok cfg)
    (hp : cfg.httpSpecConfig = some p ∨ cfg.http2SpecConfig = some p) :
    p.routeMatch.pfx = s.resolvedPrefix ∧
      (s.routeMatch = none → p.routeMatch.pfx = some "/") := by
  have hpe := httpBind_ok_slot s cfg p h hp
  subst hpe
  refine ⟨rfl, fun hm => ?_⟩
  calc s.httpConfig.routeMatch.pfx = s.resolvedPrefix := rfl
    _ = some "/" := resolvedPrefix_none_match s hm

/-- Witness for C1_defaulted_prefix at the no-match HTTP spec. -/
theorem C1_defaulted_prefix_witness :
    plainHttpProperty.routeMatch.pfx = plainHttpSpec.resolvedPrefix ∧
      (plainHttpSpec.routeMatch = none → plainHttpProperty.routeMatch.pfx = some "/") :=
  C1_defaulted_prefix plainHttpSpec plainHttpOkConfig plainHttpProperty rfl (Or.inl rfl)

/-- C2: a successfully compiled output populates a slot exactly when it is
the slot of the protocol the spec was created with, so exactly one of the
three slots is populated. -/
theorem C2_exactly_one_protocol_slot (g : GatewayRouteSpec) (cfg : GatewayRouteSpecConfig)
    (h : g.bind = Except.ok cfg) :
    (cfg.httpSpecConfig.isSome = true ↔ g.protocolOf = Protocol.HTTP) ∧
    (cfg.http2SpecConfig.isSome = true ↔ g.protocolOf = Protocol.HTTP2) ∧
    (cfg.grpcSpecConfig.isSome = true ↔ g.protocolOf = Protocol.GRPC) := by
  cases g with
  | http o =>
    have hc := httpBind_ok_eq (HttpGatewayRouteSpec.ofOptions o Protocol.HTTP) cfg h
    subst hc
    simp [GatewayRouteSpec.protocolOf, HttpGatewayRouteSpec.ofOptions]
  | http2 o =>
    have hc := httpBind_ok_eq (HttpGatewayRouteSpec.ofOptions o Protocol.HTTP2) cfg h
    subst hc
    simp [GatewayRouteSpec.protocolOf, HttpGatewayRouteSpec.ofOptions]
  | grpc o =>
    have hc : cfg = (GrpcGatewayRouteSpec.ofOptions o).bind := (Except.ok.inj h).symm
    subst hc
    simp [GatewayRouteSpec.protocolOf, GrpcGatewayRouteSpec.bind]

/-- Witness for C2_exactly_one_protocol_slot at a plain HTTP spec. -/
theorem C2_exactly_one_protocol_slot_witness :
    (plainHttpOkConfig.httpSpecConfig.isSome = true ↔
      (GatewayRouteSpec.http plainHttpOptions).protocolOf = Protocol.HTTP) ∧
    (plainHttpOkConfig.http2SpecConfig.isSome = true ↔
      (GatewayRouteSpec.http plainHttpOptions).protocolOf = Protocol.HTTP2) ∧
    (plainHttpOkConfig.grpcSpecConfig.isSome = true ↔
      (GatewayRouteSpec.http plainHttpOptions).protocolOf = Protocol.GRPC) :=
  C2_exactly_one_protocol_slot (GatewayRouteSpec.http plainHttpOptions) plainHttpOkConfig rfl

/-- C3: when the resolved prefix is a non-empty string whose first
character is not `'/'`, bind fails with `invalidPrefixFormat`; when the
resolved prefix is absent or starts with `'/'`, bind never fails with
`invalidPrefixFormat`. -/
theorem C3_invalid_prefix_format (s : HttpGatewayRouteSpec) :
    (∀ p : String, s.resolvedPrefix = some p → p ≠ "" → p.data.head? ≠ some '/' →
        s.bind = Except.error (GatewayRouteBindError.invalidPrefixFormat (some p))) ∧
    ((s.resolvedPrefix = none ∨ ∃ p, s.resolvedPrefix = some p ∧ p.data.head? = some '/') →
        ∀ q, s.bind ≠ Except.error (GatewayRouteBindError.invalidPrefixFormat q)) := by
  constructor
  · intro p hres hne hsl
    have htest : invalidPrefixTest s.resolvedPrefix = true := by
      rw [hres]
      simp [invalidPrefixTest, bne_iff_ne, hne, hsl]
    unfold HttpGatewayRouteSpec.bind
    rw [if_pos htest, hres]
  · intro hyp q
    have htest : invalidPrefixTest s.resolvedPrefix = false := by
      rcases hyp with hnone | ⟨p, hres, hsl⟩
      · rw [hnone]; rfl
      · rw [hres]; simp [invalidPrefixTest, hsl]
    unfold HttpGatewayRouteSpec.bind
    rw [if_neg (by simp [htest])]
    split_ifs <;> simp

/-- Witness for C3_invalid_prefix_format at prefix `"metrics"`. -/
theorem C3_invalid_prefix_format_witness :
    badPrefixSpec.bind =
      Except.error (GatewayRouteBindError.invalidPrefixFormat (some "metrics")) :=
  (C3_invalid_prefix_format badPrefixSpec).1 "metrics" rfl (by decide) (by decide)

/-- C4: a spec whose rewrite resolves to a prefix rewrite while the
caller-supplied match resolves to no prefix fails with
`prefixRewriteRequiresPrefixMatch` (an `Except.error`, so no output is
produced). -/
theorem C4_prefix_rewrite_requires_prefix_match (s : HttpGatewayRouteSpec)
    (r : HttpGatewayRouteRewrite) (hr : s.rewrite = some r)
    (hpfx : r.bind.pfx.isSome = true) (hm : s.matchPrefix = none) :
    s.bind = Except.error GatewayRouteBindError.prefixRewriteRequiresPrefixMatch := by
  have htest := invalidPrefixTest_of_matchPrefix_none s hm
  unfold HttpGatewayRouteSpec.bind
  rw [if_neg (by simp [htest])]
  rw [if_pos (by simp [hr, hpfx, hm, jsTruthy])]

/-- Witness for C4 at scenario D: path match plus default-prefix rewrite. -/
theorem C4_prefix_rewrite_requires_prefix_match_witness :
    pathMatchPrefixRewriteSpec.bind =
      Except.error GatewayRouteBindError.prefixRewriteRequiresPrefixMatch :=
  C4_prefix_rewrite_requires_prefix_match pathMatchPrefixRewriteSpec
    (HttpGatewayRouteRewrite.defaultPrefixOf Default.ENABLED none) rfl (by decide) rfl

/-- C5 counterexample: the claim says every spec with a path rewrite and a
match that does have a prefix fails with `pathRewriteConflictsWithPrefixMatch`;
the spec with prefix `""` and a path rewrite has a prefix in its match, yet
its compilation succeeds (the empty string is falsy in the source's check). -/
theorem C5_counterexample :
    emptyPrefixPathRewriteSpec.matchPrefix = some "" ∧
    (HttpGatewayRouteRewrite.path "/check" none).bind.path.isSome = true ∧
    emptyPrefixPathRewriteSpec.bind.toOption.isSome = true := by
  exact ⟨rfl, rfl, rfl⟩

/-- C5 (amended): a path rewrite paired with a match whose bound prefix is
a non-empty string starting with `'/'` fails with
`pathRewriteConflictsWithPrefixMatch` (a non-empty prefix not starting
with `'/'` fails the earlier format check instead, and an empty-string
prefix is treated as no prefix by the conflict check). -/
theorem C5_path_rewrite_conflict (s : HttpGatewayRouteSpec)
    (r : HttpGatewayRouteRewrite) (hr : s.rewrite = some r) (hpath : r.bind.path.isSome = true)
    (m : HttpGatewayRouteMatch) (hmm : s.routeMatch = some m)
    (p : String) (hp : m.bind.requestMatch.pfx = some p)
    (hne : p ≠ "") (hsl : p.data.head? = some '/') :
    s.bind = Except.error GatewayRouteBindError.pathRewriteConflictsWithPrefixMatch := by
  have hres : s.resolvedPrefix = some p := by rw [resolvedPrefix_some_match s m hmm, hp]
  have hmp : s.matchPrefix = some p := by
    unfold HttpGatewayRouteSpec.matchPrefix
    rw [hmm]
    simpa using hp
  have hnopfx : r.bind.pfx = none := rewrite_path_no_pfx r hpath
  unfold HttpGatewayRouteSpec.bind
  rw [if_neg (by rw [hres]; simp [invalidPrefixTest, hsl])]
  rw [if_neg (by simp [hr, hnopfx])]
  rw [if_pos (by simp [hr, hpath, hmp, jsTruthy, bne_iff_ne, hne])]

/-- Witness for C5_path_rewrite_conflict at prefix `"/api"` plus a path
rewrite. -/
theorem C5_path_rewrite_conflict_witness :
    apiPrefixPathRewriteSpec.bind =
      Except.error GatewayRouteBindError.pathRewriteConflictsWithPrefixMatch :=
  C5_path_rewrite_conflict apiPrefixPathRewriteSpec
    (HttpGatewayRouteRewrite.path "/check" none) rfl (by decide)
    (HttpGatewayRouteMatch.prefixMatch "/api" none) rfl
    "/api" rfl (by decide) (by decide)

/-- C6 counterexample: the claim says a spec with no match (prefix
defaulted to `"/"`) and a prefix-rewrite action compiles successfully; on
the code the rewrite check reads the caller-supplied match's prefix,
ignores the default and throws `prefixRewriteRequiresPrefixMatch`. -/
theorem C6_counterexample :
    noMatchPrefixRewriteSpec.routeMatch = none ∧
    noMatchPrefixRewriteSpec.bind =
      Except.error GatewayRouteBindError.prefixRewriteRequiresPrefixMatch := by
  exact ⟨rfl, rfl⟩

/-- C6 (amended): the format check sees the defaulted prefix but the
rewrite/match pairing checks read the caller-supplied match's prefix
without the `'/'` default, so a spec with no match and a prefix-rewrite
action has resolved prefix `"/"` yet fails with
`prefixRewriteRequiresPrefixMatch`. -/
theorem C6_rewrite_check_ignores_default (s : HttpGatewayRouteSpec)
    (hm : s.routeMatch = none) (r : HttpGatewayRouteRewrite)
    (hr : s.rewrite = some r) (hpfx : r.bind.pfx.isSome = true) :
    s.resolvedPrefix = some "/" ∧
    s.bind = Except.error GatewayRouteBindError.prefixRewriteRequiresPrefixMatch := by
  have hres := resolvedPrefix_none_match s hm
  have hmp : s.matchPrefix = none := by
    unfold HttpGatewayRouteSpec.matchPrefix
    rw [hm]
    rfl
  refine ⟨hres, ?_⟩
  unfold HttpGatewayRouteSpec.bind
  rw [if_neg (by rw [hres]; decide)]
  rw [if_pos (by simp [hr, hpfx, hmp, jsTruthy])]

/-- Witness for C6_rewrite_check_ignores_default at the no-match spec with
a default-prefix rewrite. -/
theorem C6_rewrite_check_ignores_default_witness :
    noMatchPrefixRewriteSpec.resolvedPrefix = some "/" ∧
    noMatchPrefixRewriteSpec.bind =
      Except.error GatewayRouteBindError.prefixRewriteRequiresPrefixMatch :=
  C6_rewrite_check_ignores_default noMatchPrefixRewriteSpec rfl
    (HttpGatewayRouteRewrite.defaultPrefixOf Default.ENABLED none) rfl (by decide)

/-- C7: scenario E requests a disabled-hostname rewrite on a gRPC spec;
the constructor of the gRPC spec class never stores `options.rewrite`,
so compilation succeeds, populates only the grpc slot, but emits
`action.rewrite` absent instead of the requested
`hostname.defaultTargetHostname == disabled`. -/
theorem C7_grpc_rewrite_dropped :
    grpcRewriteOptions.rewrite =
      some (GrpcGatewayRouteRewrite.defaultHostname Default.DISABLED) ∧
    ((GatewayRouteSpec.grpc grpcRewriteOptions).bind.toOption.bind
        GatewayRouteSpecConfig.grpcSpecConfig).map (fun p => p.action.rewrite) = some none ∧
    ((GatewayRouteSpec.grpc grpcRewriteOptions).bind.toOption.map
        (fun cfg => cfg.httpSpecConfig.isNone && cfg.http2SpecConfig.isNone)) = some true := by
  exact ⟨rfl, rfl, rfl⟩

/-- C8: prefix and path are never both present: in any bound
`HttpGatewayRouteMatch`, in the prefix- and path-based entry points
specifically, in the `prefixOrPath` sub-builder (exactly one of the two),
and in the match of every successfully compiled HTTP/HTTP2 output. -/
theorem C8_prefix_path_mutual_exclusion :
    (∀ m : HttpGatewayRouteMatch,
        ¬(m.bind.requestMatch.pfx.isSome = true ∧ m.bind.requestMatch.path.isSome = true)) ∧
    (∀ (p : String) (o : Option HttpGatewayRoutePrefixMatchOptions),
        (HttpGatewayRouteMatch.prefixMatch p o).bind.requestMatch.path = none) ∧
    (∀ (pm : HttpPathMatch) (o : HttpGatewayRoutePathMatchOptions),
        (HttpGatewayRouteMatch.pathMatch pm o).bind.requestMatch.pfx = none) ∧
    (∀ pp : HttpGatewayRoutePathOrPrefixMatch,
        pp.bind.requestMatch.pfx.isSome = true ↔ pp.bind.requestMatch.path.isSome = false) ∧
    (∀ (s : HttpGatewayRouteSpec) (cfg : GatewayRouteSpecConfig) (p : HttpGatewayRouteProperty),
        s.bind = Except.ok cfg →
        cfg.httpSpecConfig = some p ∨ cfg.http2SpecConfig = some p →
        ¬(p.routeMatch.pfx.isSome = true ∧ p.routeMatch.path.isSome = true)) := by
  refine ⟨match_pfx_path_exclusive, fun p o => rfl, fun pm o => rfl, ?_, ?_⟩
  · intro pp
    cases pp <;> simp [HttpGatewayRoutePathOrPrefixMatch.bind]
  · intro s cfg p h hp
    have hpe := httpBind_ok_slot s cfg p h hp
    subst hpe
    cases hmm : s.routeMatch with
    | none =>
      rintro ⟨h1, h2⟩
      rw [show s.httpConfig.routeMatch.path =
        (s.routeMatch.bind fun m => m.bind.requestMatch.path) from rfl, hmm] at h2
      simp at h2
    | some m =>
      rintro ⟨h1, h2⟩
      rw [show s.httpConfig.routeMatch.pfx = s.resolvedPrefix from rfl,
        resolvedPrefix_some_match s m hmm] at h1
      rw [show s.httpConfig.routeMatch.path =
        (s.routeMatch.bind fun m => m.bind.requestMatch.path) from rfl, hmm] at h2
      simp only [Option.some_bind] at h2
      exact match_pfx_path_exclusive m ⟨h1, h2⟩

/-- Witness for C8_prefix_path_mutual_exclusion at scenario A. -/
theorem C8_prefix_path_mutual_exclusion_witness :
    ¬(metricsPrefixProperty.routeMatch.pfx.isSome = true ∧
      metricsPrefixProperty.routeMatch.path.isSome = true) :=
  C8_prefix_path_mutual_exclusion.2.2.2.2 metricsPrefixSpec metricsPrefixOkConfig
    metricsPrefixProperty rfl (Or.inl rfl)

/-- C9: `TlsValidationTrust.acm(...).bind` throws exactly when the supplied
certificate-authority list is empty, and otherwise returns the trust
config whose `acm.certificateAuthorityArns` is the list of the supplied
authorities' ARNs, in order. -/
theorem C9_acm_trust_bind (cas : List ICertificateAuthority) :
    ((TlsValidationTrust.acm { certificateAuthorities := cas }).bind =
        Except.error "you must provide at least one Certificate Authority when creating an ACM Trust ClientPolicy"
      ↔ cas = []) ∧
    (cas ≠ [] →
      (TlsValidationTrust.acm { certificateAuthorities := cas }).bind =
        Except.ok { tlsValidationTrust := { acm := some {
          certificateAuthorityArns := cas.map fun c => c.certificateAuthorityArn } } }) := by
  constructor
  · simp only [TlsValidationTrust.acm, TlsValidationTrust.bind]
    split_ifs with hlen
    · simp [List.length_eq_zero.mp hlen]
    · have hne : cas ≠ [] := by
        intro hc
        exact hlen (by simp [hc])
      simp [hne]
  · intro hne
    simp only [TlsValidationTrust.acm, TlsValidationTrust.bind]
    rw [if_neg (by simpa [List.length_eq_zero] using hne)]

/-- Witness for C9_acm_trust_bind at a two-authority list. -/
theorem C9_acm_trust_bind_witness :
    (TlsValidationTrust.acm { certificateAuthorities := twoAuthorities }).bind =
      Except.ok { tlsValidationTrust := { acm := some {
        certificateAuthorityArns := twoAuthorities.map fun c => c.certificateAuthorityArn } } } :=
  (C9_acm_trust_bind twoAuthorities).2 (by decide)

/-- C10: the `path`, `defaultPrefix` and `customPrefix` rewrite entry
points always bind a hostname record carrying
`options?.defaultTargetHostname` (absent option gives an empty record, not
an absent one), and every successfully compiled HTTP/HTTP2 output carrying
a rewrite whose bound config has a hostname record has `hostname` present
inside `action.rewrite`. -/
theorem C10_rewrite_hostname_always_present :
    (∀ (e : String) (o : Option HttpGatewayRoutePrefixRewriteOptions),
        (HttpGatewayRouteRewrite.path e o).bind.hostname =
          some { defaultTargetHostname := o.bind fun x => x.defaultTargetHostname }) ∧
    (∀ (d : Default) (o : Option HttpGatewayRoutePrefixRewriteOptions),
        (HttpGatewayRouteRewrite.defaultPrefixOf d o).bind.hostname =
          some { defaultTargetHostname := o.bind fun x => x.defaultTargetHostname }) ∧
    (∀ (v : Default) (o : Option HttpGatewayRoutePrefixRewriteOptions),
        (HttpGatewayRouteRewrite.customPrefixOf v o).bind.hostname =
          some { defaultTargetHostname := o.bind fun x => x.defaultTargetHostname }) ∧
    (∀ (s : HttpGatewayRouteSpec) (r : HttpGatewayRouteRewrite) (cfg : GatewayRouteSpecConfig)
        (p : HttpGatewayRouteProperty),
        s.rewrite = some r → r.bind.hostname.isSome = true → s.bind = Except.ok cfg →
        cfg.httpSpecConfig = some p ∨ cfg.http2SpecConfig = some p →
        (p.action.rewrite.map fun w => w.hostname.isSome) = some true) := by
  refine ⟨fun e o => rfl, fun d o => rfl, fun v o => rfl, ?_⟩
  intro s r cfg p hr hh h hp
  have hpe := httpBind_ok_slot s cfg p h hp
  subst hpe
  have h1 : s.httpConfig.action.rewrite =
      some { hostname := r.bind.hostname, path := r.bind.path, pfx := r.bind.pfx } := by
    show (s.rewrite.map fun rr =>
        ({ hostname := rr.bind.hostname, path := rr.bind.path, pfx := rr.bind.pfx } :
          HttpGatewayRouteRewriteProperty)) = _
    rw [hr]
    rfl
  rw [h1]
  simp [hh]

/-- Witness for C10_rewrite_hostname_always_present at a path rewrite with
an explicit default target hostname. -/
theorem C10_rewrite_hostname_always_present_witness :
    (pathRewriteHostnameProperty.action.rewrite.map fun w => w.hostname.isSome) = some true :=
  C10_rewrite_hostname_always_present.2.2.2 pathRewriteHostnameSpec
    (HttpGatewayRouteRewrite.path "/check" (some { defaultTargetHostname := some "override.host" }))
    pathRewriteHostnameOkConfig pathRewriteHostnameProperty rfl (by decide) rfl (Or.inl rfl)

end AppMesh
